import Mathlib

set_option maxHeartbeats 1000000

/-!
Shallow embedding of the OIDC authorize handler of
`internal/oidc/oauth2_auth.go` (package `oidc`): the client-registry
lookup `getOIDCClientConfig`, the consent decision of lines 74-75, and
the orchestration of `authorizeHandler` with its two entry points
`AuthorizeEndpointGet` and `AuthorizeEndpointPost`.

External collaborators (protocol engine, policy engine, session store,
proxy-header resolution) are modelled as an environment `Env` that fixes
the outcome of each fallible call for one invocation; the handler is a
pure function from that environment to an outcome plus an ordered trace
of the observable effects (session reads, session persists, scope and
audience grants, the call into the protocol engine's response builder).
-/

/-- Authentication levels of a user session, ordered:
unauthenticated < one-factor < two-factor. -/
inductive AuthenticationLevel
  | notAuthenticated
  | oneFactor
  | twoFactor
deriving Repr, DecidableEq

/-- Rank of an authentication level in the total order. -/
def AuthenticationLevel.rank : AuthenticationLevel → Nat
  | .notAuthenticated => 0
  | .oneFactor => 1
  | .twoFactor => 2

/-- Policy-required authorization levels; `bypass` requires nothing. -/
inductive AuthorizationLevel
  | bypass
  | oneFactor
  | twoFactor
deriving Repr, DecidableEq

/-- Rank of a required authorization level. -/
def AuthorizationLevel.rank : AuthorizationLevel → Nat
  | .bypass => 0
  | .oneFactor => 1
  | .twoFactor => 2

/-- Modelled from the spec: `authorization.IsAuthLevelSufficient`
(package `internal/authorization`, not under `src/`). The spec states
the helper compares the current authentication level against the
required level using the rank order; insufficient means the current
rank is strictly lower than the required rank, with bypass treated as
always sufficient. -/
def IsAuthLevelSufficient (current : AuthenticationLevel)
    (required : AuthorizationLevel) : Bool :=
  decide (required.rank ≤ current.rank)

/-- Modelled from the spec: `utils.IsStringSlicesDifferent`
(package `internal/utils`, not under `src/`). The spec states the
requested scopes differ from the granted scopes under a
symmetric-difference (set-equality, not subsequence) comparison,
independent of the order of either list. -/
def IsStringSlicesDifferent (a b : List String) : Bool :=
  decide (a.toFinset ≠ b.toFinset)

/-- `schema.OpenIDConnectClientConfiguration`: only the `ID` field is
read by this handler. -/
structure OpenIDConnectClientConfiguration where
  ID : String
deriving Repr, DecidableEq

/-- `schema.OpenIDConnectConfiguration`: the static client registry. -/
structure OpenIDConnectConfiguration where
  Clients : List OpenIDConnectClientConfiguration
deriving Repr, DecidableEq

/-- `getOIDCClientConfig` (lines 29-37): linear scan of the registry,
returning the first client whose `ID` equals the requested client ID,
or an absent result. -/
def getOIDCClientConfig (clientID : String)
    (configuration : OpenIDConnectConfiguration) :
    Option OpenIDConnectClientConfiguration :=
  configuration.Clients.find? (fun c => clientID == c.ID)

/-- `session.OIDCWorkflowSession`: the consent-workflow record stored in
the user session. The Go `new(session.OIDCWorkflowSession)` allocation
zero-initializes every field, so a freshly created record has empty
`GrantedScopes` unless assigned. -/
structure OIDCWorkflowSession where
  ClientID : String
  RequestedScopes : List String
  GrantedScopes : List String
  AuthURI : String
  TargetURI : String
  RequiredAuthorizationLevel : AuthorizationLevel
deriving Repr, DecidableEq

/-- `session.UserSession`: the fields of the per-browser session read or
written by the authorize handler. -/
structure UserSession where
  Username : String
  Groups : List String
  AuthenticationLevel : AuthenticationLevel
  OIDCWorkflowSession : Option OIDCWorkflowSession
deriving Repr, DecidableEq

/-- The parsed authorize request (`fosite.AuthorizeRequester`): the
values the handler extracts from it via `GetID`, `GetClient().GetID()`,
`GetRedirectURI`, `GetRequestedScopes`, `GetRequestedAudience`. -/
structure AuthorizeRequest where
  id : String
  clientID : String
  redirectURI : String
  requestedScopes : List String
  requestedAudience : List String
deriving Repr, DecidableEq

/-- Environment of one invocation: the result each external collaborator
call would return if reached. -/
structure Env where
  parseResult : Except String AuthorizeRequest
  configuration : OpenIDConnectConfiguration
  session : UserSession
  requiredLevel : AuthorizationLevel
  originalURL : Except String String
  forwardedProtoHost : Except String String
  saveSessionErr : Option String
  authorizeResponseErr : Option String
deriving Repr

/-- Observable effects of one invocation, in program order. -/
inductive Event
  | sessionRead
  | policyCheck (required : AuthorizationLevel)
  | grantScope (scope : String)
  | grantAudience (audience : String)
  | sessionPersist (s : UserSession) (ok : Bool)
  | newAuthorizeResponse
deriving Repr, DecidableEq

/-- Terminal HTTP action of one invocation. -/
inductive Outcome
  | writeAuthorizeError (msg : String)
  | httpError (status : Nat) (msg : String)
  | redirect (status : Nat) (location : String)
  | writeAuthorizeResponse
deriving Repr, DecidableEq

/-- Result of one invocation: the terminal action, the effect trace, and
the scopes and audiences marked granted on the request object. -/
structure HandlerResult where
  outcome : Outcome
  events : List Event
  grantedScopes : List String
  grantedAudience : List String
deriving Repr, DecidableEq

/-- The consent decision of lines 74-75:
`len(ar.GetRequestedScopes()) > 0 && (userSession.OIDCWorkflowSession == nil || utils.IsStringSlicesDifferent(ar.GetRequestedScopes(), userSession.OIDCWorkflowSession.GrantedScopes))`. -/
def isConsentMissing (requestedScopes : List String)
    (workflow : Option OIDCWorkflowSession) : Bool :=
  decide (requestedScopes.length > 0) &&
    (match workflow with
     | none => true
     | some w => IsStringSlicesDifferent requestedScopes w.GrantedScopes)

/-- Lines 119-163 of `authorizeHandler`: grant every requested scope and
audience, re-read the session, clear the workflow, persist, and delegate
to the protocol engine's response builder; a persist failure answers 500
before the builder is reached, a builder failure goes to the protocol
error writer. `events` is the trace accumulated before this point. -/
def finalizeAuthorization (env : Env) (ar : AuthorizeRequest)
    (events : List Event) : HandlerResult :=
  let scopes := ar.requestedScopes
  let audience := ar.requestedAudience
  let events := events ++ scopes.map Event.grantScope
      ++ audience.map Event.grantAudience ++ [Event.sessionRead]
  let cleared : UserSession := { env.session with OIDCWorkflowSession := none }
  match env.saveSessionErr with
  | some e =>
      { outcome := .httpError 500 e
        events := events ++ [Event.sessionPersist cleared false]
        grantedScopes := scopes
        grantedAudience := audience }
  | none =>
      let events := events ++ [Event.sessionPersist cleared true]
      match env.authorizeResponseErr with
      | some e =>
          { outcome := .writeAuthorizeError e
            events := events ++ [Event.newAuthorizeResponse]
            grantedScopes := scopes
            grantedAudience := audience }
      | none =>
          { outcome := .writeAuthorizeResponse
            events := events ++ [Event.newAuthorizeResponse]
            grantedScopes := scopes
            grantedAudience := audience }

/-- `authorizeHandler` (lines 40-164). `post` is true on the trusted
continuation entry point and false on the browser-navigation one. -/
def authorizeHandler (env : Env) (post : Bool) : HandlerResult :=
  match env.parseResult with
  | .error e =>
      { outcome := .writeAuthorizeError e, events := []
        grantedScopes := [], grantedAudience := [] }
  | .ok ar =>
    let clientID := ar.clientID
    match getOIDCClientConfig clientID env.configuration with
    | none =>
        { outcome := .writeAuthorizeError
            ("Unable to find related client configuration with name " ++ ar.id)
          events := [], grantedScopes := [], grantedAudience := [] }
    | some _clientConfig =>
      if post then
        finalizeAuthorization env ar []
      else
        let targetURL := ar.redirectURI
        let userSession := env.session
        let requiredAuthorizationLevel := env.requiredLevel
        let events0 := [Event.sessionRead,
          Event.policyCheck requiredAuthorizationLevel]
        let isAuthInsufficient :=
          !(IsAuthLevelSufficient userSession.AuthenticationLevel
            requiredAuthorizationLevel)
        let consentMissing :=
          isConsentMissing ar.requestedScopes userSession.OIDCWorkflowSession
        if isAuthInsufficient || consentMissing then
          match env.originalURL with
          | .error e =>
              { outcome := .httpError 500 e, events := events0
                grantedScopes := [], grantedAudience := [] }
          | .ok forwardedURI =>
            let workflow : OIDCWorkflowSession :=
              { ClientID := clientID
                RequestedScopes := ar.requestedScopes
                GrantedScopes := []
                AuthURI := forwardedURI
                TargetURI := targetURL
                RequiredAuthorizationLevel := requiredAuthorizationLevel }
            let userSession1 : UserSession :=
              { userSession with OIDCWorkflowSession := some workflow }
            match env.saveSessionErr with
            | some e =>
                { outcome := .httpError 500 e
                  events := events0 ++ [Event.sessionPersist userSession1 false]
                  grantedScopes := [], grantedAudience := [] }
            | none =>
              let events1 := events0 ++ [Event.sessionPersist userSession1 true]
              match env.forwardedProtoHost with
              | .error e =>
                  { outcome := .httpError 500 e, events := events1
                    grantedScopes := [], grantedAudience := [] }
              | .ok uri =>
                if consentMissing then
                  { outcome := .redirect 302 (uri ++ "/consent")
                    events := events1
                    grantedScopes := [], grantedAudience := [] }
                else
                  { outcome := .redirect 302 (uri ++ "?workflow=openid")
                    events := events1
                    grantedScopes := [], grantedAudience := [] }
        else
          finalizeAuthorization env ar events0

/-- `AuthorizeEndpointPost` (lines 167-173): the trusted-continuation
entry point. -/
def AuthorizeEndpointPost (env : Env) : HandlerResult :=
  authorizeHandler env true

/-- `AuthorizeEndpointGet` (lines 176-182): the browser-navigation entry
point. -/
def AuthorizeEndpointGet (env : Env) : HandlerResult :=
  authorizeHandler env false

/-- The session-persist attempts of a trace, in order, with the session
value written and whether the store reported success. -/
def persistEvents (es : List Event) : List (UserSession × Bool) :=
  es.filterMap (fun e =>
    match e with
    | .sessionPersist s ok => some (s, ok)
    | _ => none)

/-- The workflow record lines 87-92 build for the pending branch: every
field assigned from the current request, `GrantedScopes` left at the
zero value of `new(session.OIDCWorkflowSession)`. -/
def pendingWorkflow (env : Env) (ar : AuthorizeRequest) (u : String) :
    OIDCWorkflowSession :=
  { ClientID := ar.clientID
    RequestedScopes := ar.requestedScopes
    GrantedScopes := []
    AuthURI := u
    TargetURI := ar.redirectURI
    RequiredAuthorizationLevel := env.requiredLevel }

/-- The session value the pending branch hands to `SaveSession`. -/
def pendingSession (env : Env) (ar : AuthorizeRequest) (u : String) :
    UserSession :=
  { env.session with OIDCWorkflowSession := some (pendingWorkflow env ar u) }

/-- A registered client used by the concrete scenarios. -/
def clientApp : OpenIDConnectClientConfiguration := { ID := "app" }

/-- Registry holding only `clientApp`. -/
def registryApp : OpenIDConnectConfiguration := { Clients := [clientApp] }

/-- A parsed request by client `app` asking for the `openid` scope. -/
def arOpenid : AuthorizeRequest :=
  { id := "req-1", clientID := "app"
    redirectURI := "https://app.example.com/cb"
    requestedScopes := ["openid"], requestedAudience := [] }

/-- A parsed request by client `app` with no scopes and one audience. -/
def arNoScopes : AuthorizeRequest :=
  { id := "req-2", clientID := "app"
    redirectURI := "https://app.example.com/cb"
    requestedScopes := [], requestedAudience := ["https://api.example.com"] }

/-- A workflow session stored for a different client, `other`, whose
granted scopes happen to cover `arOpenid`'s request. -/
def workflowOther : OIDCWorkflowSession :=
  { ClientID := "other", RequestedScopes := ["openid"]
    GrantedScopes := ["openid"]
    AuthURI := "https://auth.example.com/api/oidc/authorize"
    TargetURI := "https://other.example.com/cb"
    RequiredAuthorizationLevel := .oneFactor }

/-- A strongly authenticated session carrying `workflowOther`. -/
def sessionOtherClientWorkflow : UserSession :=
  { Username := "john", Groups := ["dev"]
    AuthenticationLevel := .twoFactor
    OIDCWorkflowSession := some workflowOther }

/-- A fresh, unauthenticated session with no workflow. -/
def sessionFresh : UserSession :=
  { Username := "john", Groups := ["dev"]
    AuthenticationLevel := .notAuthenticated
    OIDCWorkflowSession := none }

/-- A strongly authenticated session with no workflow. -/
def sessionSatisfied : UserSession :=
  { Username := "john", Groups := ["dev"]
    AuthenticationLevel := .twoFactor
    OIDCWorkflowSession := none }

/-- Browser navigation by client `app` while the session carries a
workflow that belongs to client `other`; the policy is satisfied and
all infrastructure calls succeed. -/
def envClientMismatch : Env :=
  { parseResult := .ok arOpenid
    configuration := registryApp
    session := sessionOtherClientWorkflow
    requiredLevel := .oneFactor
    originalURL := .ok "https://app.example.com/protected"
    forwardedProtoHost := .ok "https://auth.example.com"
    saveSessionErr := none
    authorizeResponseErr := none }

/-- Pending scenario in which only the proxy host/scheme resolution
fails: the forwarded URI resolves and the session store is healthy. -/
def envProtoHostFails : Env :=
  { parseResult := .ok arOpenid
    configuration := registryApp
    session := sessionFresh
    requiredLevel := .oneFactor
    originalURL := .ok "https://app.example.com/protected"
    forwardedProtoHost := .error "missing forwarded headers"
    saveSessionErr := none
    authorizeResponseErr := none }

/-- Pending scenario with every infrastructure call healthy: fresh
session, two-factor required. -/
def envPending : Env :=
  { parseResult := .ok arOpenid
    configuration := registryApp
    session := sessionFresh
    requiredLevel := .twoFactor
    originalURL := .ok "https://app.example.com/protected"
    forwardedProtoHost := .ok "https://auth.example.com"
    saveSessionErr := none
    authorizeResponseErr := none }

/-- Satisfied scenario: sufficient authentication, no workflow, empty
requested scopes, every collaborator healthy. -/
def envSatisfied : Env :=
  { parseResult := .ok arNoScopes
    configuration := registryApp
    session := sessionSatisfied
    requiredLevel := .oneFactor
    originalURL := .ok "https://app.example.com/protected"
    forwardedProtoHost := .ok "https://auth.example.com"
    saveSessionErr := none
    authorizeResponseErr := none }

/-- Satisfied scenario in which the response builder fails. -/
def envBuilderFails : Env :=
  { envSatisfied with authorizeResponseErr := some "invalid redirect" }

/-- Request whose client is absent from the registry. -/
def envUnknownClient : Env :=
  { envPending with configuration := { Clients := [] } }

example :
    isConsentMissing ["openid", "email"] (some
      { ClientID := "a", RequestedScopes := ["openid", "email"]
        GrantedScopes := ["email", "openid"], AuthURI := "u", TargetURI := "t"
        RequiredAuthorizationLevel := .oneFactor }) = false := by decide

example :
    isConsentMissing ["openid", "email"] (some
      { ClientID := "a", RequestedScopes := ["openid"]
        GrantedScopes := ["openid"], AuthURI := "u", TargetURI := "t"
        RequiredAuthorizationLevel := .oneFactor }) = true := by decide

theorem persistEvents_append (a b : List Event) :
    persistEvents (a ++ b) = persistEvents a ++ persistEvents b := by
  simp [persistEvents]

theorem persistEvents_grantScope (xs : List String) :
    persistEvents (xs.map Event.grantScope) = [] := by
  induction xs with
  | nil => rfl
  | cons x xs ih =>
      simp only [persistEvents, List.map_cons, List.filterMap_cons] at ih ⊢
      exact ih

theorem persistEvents_grantAudience (xs : List String) :
    persistEvents (xs.map Event.grantAudience) = [] := by
  induction xs with
  | nil => rfl
  | cons x xs ih =>
      simp only [persistEvents, List.map_cons, List.filterMap_cons] at ih ⊢
      exact ih

/-- When the satisfied branch applies (trusted continuation, or
browser navigation with sufficient authentication and consent not
missing), `authorizeHandler` is the finalization of lines 119-163,
preceded on the browser path by the session read and policy check of
lines 64-72. -/
theorem authorizeHandler_satisfied_eq (env : Env) (ar : AuthorizeRequest)
    (post : Bool)
    (hp : env.parseResult = Except.ok ar)
    (hsome : (getOIDCClientConfig ar.clientID env.configuration).isSome = true)
    (hsat : post = true ∨
      (IsAuthLevelSufficient env.session.AuthenticationLevel
          env.requiredLevel = true ∧
        isConsentMissing ar.requestedScopes
          env.session.OIDCWorkflowSession = false)) :
    authorizeHandler env post =
      finalizeAuthorization env ar
        (if post then []
         else [Event.sessionRead, Event.policyCheck env.requiredLevel]) := by
  obtain ⟨c, hc⟩ := Option.isSome_iff_exists.mp hsome
  cases post with
  | true => simp [authorizeHandler, hp, hc]
  | false =>
    rcases hsat with h | ⟨hauth, hcons⟩
    · exact absurd h (by simp)
    · simp [authorizeHandler, hp, hc, hauth, hcons]

/-- Pending branch, forwarded-URI resolution fails (lines 78-84): 500,
no session write was reached. -/
theorem authorizeHandler_pending_originalURL_error (env : Env)
    (ar : AuthorizeRequest) (e : String)
    (hp : env.parseResult = Except.ok ar)
    (hsome : (getOIDCClientConfig ar.clientID env.configuration).isSome = true)
    (hpend : (!(IsAuthLevelSufficient env.session.AuthenticationLevel
        env.requiredLevel) ||
      isConsentMissing ar.requestedScopes
        env.session.OIDCWorkflowSession) = true)
    (ho : env.originalURL = Except.error e) :
    AuthorizeEndpointGet env =
      { outcome := .httpError 500 e
        events := [Event.sessionRead, Event.policyCheck env.requiredLevel]
        grantedScopes := [], grantedAudience := [] } := by
  obtain ⟨c, hc⟩ := Option.isSome_iff_exists.mp hsome
  simp [AuthorizeEndpointGet, authorizeHandler, hp, hc, hpend, ho]

/-- Pending branch, session persist fails (lines 94-99): 500 after a
failed write of the freshly installed workflow session. -/
theorem authorizeHandler_pending_save_error (env : Env)
    (ar : AuthorizeRequest) (u e : String)
    (hp : env.parseResult = Except.ok ar)
    (hsome : (getOIDCClientConfig ar.clientID env.configuration).isSome = true)
    (hpend : (!(IsAuthLevelSufficient env.session.AuthenticationLevel
        env.requiredLevel) ||
      isConsentMissing ar.requestedScopes
        env.session.OIDCWorkflowSession) = true)
    (ho : env.originalURL = Except.ok u)
    (hs : env.saveSessionErr = some e) :
    AuthorizeEndpointGet env =
      { outcome := .httpError 500 e
        events := [Event.sessionRead, Event.policyCheck env.requiredLevel,
          Event.sessionPersist (pendingSession env ar u) false]
        grantedScopes := [], grantedAudience := [] } := by
  obtain ⟨c, hc⟩ := Option.isSome_iff_exists.mp hsome
  simp [AuthorizeEndpointGet, authorizeHandler, hp, hc, hpend, ho, hs,
    pendingSession, pendingWorkflow]

/-- Pending branch, proxy host/scheme resolution fails (lines 101-107):
500, but the workflow session was already persisted at line 94. -/
theorem authorizeHandler_pending_protoHost_error (env : Env)
    (ar : AuthorizeRequest) (u e : String)
    (hp : env.parseResult = Except.ok ar)
    (hsome : (getOIDCClientConfig ar.clientID env.configuration).isSome = true)
    (hpend : (!(IsAuthLevelSufficient env.session.AuthenticationLevel
        env.requiredLevel) ||
      isConsentMissing ar.requestedScopes
        env.session.OIDCWorkflowSession) = true)
    (ho : env.originalURL = Except.ok u)
    (hs : env.saveSessionErr = none)
    (hf : env.forwardedProtoHost = Except.error e) :
    AuthorizeEndpointGet env =
      { outcome := .httpError 500 e
        events := [Event.sessionRead, Event.policyCheck env.requiredLevel,
          Event.sessionPersist (pendingSession env ar u) true]
        grantedScopes := [], grantedAudience := [] } := by
  obtain ⟨c, hc⟩ := Option.isSome_iff_exists.mp hsome
  simp [AuthorizeEndpointGet, authorizeHandler, hp, hc, hpend, ho, hs, hf,
    pendingSession, pendingWorkflow]

/-- Pending branch, all infrastructure calls succeed (lines 109-115):
302 redirect, consent endpoint when consent is missing, otherwise the
re-authentication entry with the continuation marker. -/
theorem authorizeHandler_pending_redirect (env : Env)
    (ar : AuthorizeRequest) (u host : String)
    (hp : env.parseResult = Except.ok ar)
    (hsome : (getOIDCClientConfig ar.clientID env.configuration).isSome = true)
    (hpend : (!(IsAuthLevelSufficient env.session.AuthenticationLevel
        env.requiredLevel) ||
      isConsentMissing ar.requestedScopes
        env.session.OIDCWorkflowSession) = true)
    (ho : env.originalURL = Except.ok u)
    (hs : env.saveSessionErr = none)
    (hf : env.forwardedProtoHost = Except.ok host) :
    AuthorizeEndpointGet env =
      { outcome :=
          if isConsentMissing ar.requestedScopes
              env.session.OIDCWorkflowSession
          then .redirect 302 (host ++ "/consent")
          else .redirect 302 (host ++ "?workflow=openid")
        events := [Event.sessionRead, Event.policyCheck env.requiredLevel,
          Event.sessionPersist (pendingSession env ar u) true]
        grantedScopes := [], grantedAudience := [] } := by
  obtain ⟨c, hc⟩ := Option.isSome_iff_exists.mp hsome
  cases hcm : isConsentMissing ar.requestedScopes
      env.session.OIDCWorkflowSession with
  | true =>
    simp [AuthorizeEndpointGet, authorizeHandler, hp, hc, hpend, ho, hs, hf,
      hcm, pendingSession, pendingWorkflow]
  | false =>
    have hins : IsAuthLevelSufficient env.session.AuthenticationLevel
        env.requiredLevel = false := by
      simp [hcm] at hpend
      exact hpend
    simp [AuthorizeEndpointGet, authorizeHandler, hp, hc, ho, hs, hf,
      hcm, hins, pendingSession, pendingWorkflow]

theorem persistEvents_sessionRead :
    persistEvents [Event.sessionRead] = [] := rfl

theorem persistEvents_policyCheck (l : AuthorizationLevel) :
    persistEvents [Event.policyCheck l] = [] := rfl

theorem persistEvents_newAuthorizeResponse :
    persistEvents [Event.newAuthorizeResponse] = [] := rfl

theorem persistEvents_sessionPersist (s : UserSession) (ok : Bool) :
    persistEvents [Event.sessionPersist s ok] = [(s, ok)] := rfl

/-- Properties of the finalization of lines 119-163, for any event
prefix that contains no persist and no response-builder event: all
scopes and audiences granted, the cleared session persisted exactly
once, no builder call on persist failure, and on success the builder
call is the last event with the persist strictly before it. -/
theorem finalizeAuthorization_spec (env : Env) (ar : AuthorizeRequest)
    (pre : List Event)
    (h1 : persistEvents pre = [])
    (h2 : Event.newAuthorizeResponse ∉ pre) :
    (finalizeAuthorization env ar pre).grantedScopes = ar.requestedScopes ∧
    (finalizeAuthorization env ar pre).grantedAudience =
      ar.requestedAudience ∧
    persistEvents (finalizeAuthorization env ar pre).events =
      [({ env.session with OIDCWorkflowSession := none },
        env.saveSessionErr.isNone)] ∧
    (∀ e, env.saveSessionErr = some e →
      (finalizeAuthorization env ar pre).outcome = Outcome.httpError 500 e ∧
      Event.newAuthorizeResponse ∉ (finalizeAuthorization env ar pre).events) ∧
    (env.saveSessionErr = none →
      (finalizeAuthorization env ar pre).events.getLast? =
        some Event.newAuthorizeResponse ∧
      Event.sessionPersist { env.session with OIDCWorkflowSession := none }
        true ∈ (finalizeAuthorization env ar pre).events.dropLast) := by
  cases hsv : env.saveSessionErr with
  | some e =>
    refine ⟨?_, ?_, ?_, ?_, ?_⟩
    · simp [finalizeAuthorization, hsv]
    · simp [finalizeAuthorization, hsv]
    · simp only [finalizeAuthorization, hsv]
      simp only [persistEvents_append, persistEvents_grantScope,
        persistEvents_grantAudience, persistEvents_sessionRead,
        persistEvents_sessionPersist, h1]
      simp
    · intro e2 he2
      injection he2 with he3
      subst he3
      constructor
      · simp [finalizeAuthorization, hsv]
      · simp [finalizeAuthorization, hsv, h2]
    · intro h
      simp at h
  | none =>
    have hout :
        (finalizeAuthorization env ar pre).events =
          (pre ++ ar.requestedScopes.map Event.grantScope
            ++ ar.requestedAudience.map Event.grantAudience
            ++ [Event.sessionRead]
            ++ [Event.sessionPersist
                { env.session with OIDCWorkflowSession := none } true])
            ++ [Event.newAuthorizeResponse] := by
      cases har : env.authorizeResponseErr <;>
        simp [finalizeAuthorization, hsv, har]
    refine ⟨?_, ?_, ?_, ?_, ?_⟩
    · cases har : env.authorizeResponseErr <;>
        simp [finalizeAuthorization, hsv, har]
    · cases har : env.authorizeResponseErr <;>
        simp [finalizeAuthorization, hsv, har]
    · rw [hout]
      simp only [persistEvents_append, persistEvents_grantScope,
        persistEvents_grantAudience, persistEvents_sessionRead,
        persistEvents_sessionPersist, persistEvents_newAuthorizeResponse, h1]
      simp
    · intro e2 he2
      simp at he2
    · intro _
      rw [hout]
      constructor
      · exact List.getLast?_concat _
      · rw [List.dropLast_concat]
        simp

/-- C1: the claim fails on the code. The consent check of lines 74-75
reads the stored workflow's `GrantedScopes` without ever comparing the
workflow's `ClientID` with the current request's client (the handler
assigns `ClientID` at line 88 but never reads it). With a workflow
stored for client `other` whose granted scopes cover the request, a
browser-navigation request by client `app` is found not to be missing
consent and is finalized with every scope granted, instead of the
workflow being treated as absent. -/
theorem consent_check_ignores_workflow_client :
    workflowOther.ClientID ≠ arOpenid.clientID ∧
    envClientMismatch.session.OIDCWorkflowSession = some workflowOther ∧
    isConsentMissing arOpenid.requestedScopes (some workflowOther) = false ∧
    (AuthorizeEndpointGet envClientMismatch).outcome =
      Outcome.writeAuthorizeResponse ∧
    (AuthorizeEndpointGet envClientMismatch).grantedScopes = ["openid"] := by
  refine ⟨by decide, rfl, by decide, by decide, by decide⟩

/-- C2, counterexample: with the forwarded URI resolved and the session
store healthy but the proxy host/scheme unresolvable, the handler has
already persisted the freshly installed workflow session (line 94 runs
before line 101) when it answers 500 — so a session write does occur
although one decision input, the proxy host/scheme, was never
successfully gathered. -/
theorem session_persisted_before_proto_host_gathered :
    envProtoHostFails.forwardedProtoHost =
      Except.error "missing forwarded headers" ∧
    (AuthorizeEndpointGet envProtoHostFails).outcome =
      Outcome.httpError 500 "missing forwarded headers" ∧
    persistEvents (AuthorizeEndpointGet envProtoHostFails).events =
      [(pendingSession envProtoHostFails arOpenid
          "https://app.example.com/protected", true)] := by
  refine ⟨rfl, by decide, by decide⟩

/-- C2, amended: each infrastructure failure in the pending branch
(forwarded-URI resolution, session persist, proxy host/scheme
resolution) yields a 500 response and terminates; a forwarded-URI
resolution failure yields no session persistence attempt at all, and
the session write is attempted only after the forwarded URI has been
resolved — but the session is persisted before the proxy host/scheme
resolution, so when that resolution fails the workflow session has
already been persisted. -/
theorem pending_branch_error_persistence (env : Env) (ar : AuthorizeRequest)
    (hp : env.parseResult = Except.ok ar)
    (hsome : (getOIDCClientConfig ar.clientID env.configuration).isSome = true)
    (hpend : (!(IsAuthLevelSufficient env.session.AuthenticationLevel
        env.requiredLevel) ||
      isConsentMissing ar.requestedScopes
        env.session.OIDCWorkflowSession) = true) :
    (∀ e, env.originalURL = Except.error e →
      (AuthorizeEndpointGet env).outcome = Outcome.httpError 500 e ∧
      persistEvents (AuthorizeEndpointGet env).events = []) ∧
    (∀ u e, env.originalURL = Except.ok u → env.saveSessionErr = some e →
      (AuthorizeEndpointGet env).outcome = Outcome.httpError 500 e ∧
      persistEvents (AuthorizeEndpointGet env).events =
        [(pendingSession env ar u, false)]) ∧
    (∀ u e, env.originalURL = Except.ok u → env.saveSessionErr = none →
      env.forwardedProtoHost = Except.error e →
      (AuthorizeEndpointGet env).outcome = Outcome.httpError 500 e ∧
      persistEvents (AuthorizeEndpointGet env).events =
        [(pendingSession env ar u, true)]) := by
  refine ⟨?_, ?_, ?_⟩
  · intro e ho
    rw [authorizeHandler_pending_originalURL_error env ar e hp hsome hpend ho]
    exact ⟨rfl, rfl⟩
  · intro u e ho hs
    rw [authorizeHandler_pending_save_error env ar u e hp hsome hpend ho hs]
    exact ⟨rfl, rfl⟩
  · intro u e ho hs hf
    rw [authorizeHandler_pending_protoHost_error env ar u e hp hsome hpend
      ho hs hf]
    exact ⟨rfl, rfl⟩

/-- Witness for the amended C2 at the concrete proxy-host-failure
environment. -/
theorem pending_branch_error_persistence_witness :
    (AuthorizeEndpointGet envProtoHostFails).outcome =
      Outcome.httpError 500 "missing forwarded headers" ∧
    persistEvents (AuthorizeEndpointGet envProtoHostFails).events =
      [(pendingSession envProtoHostFails arOpenid
          "https://app.example.com/protected", true)] :=
  (pending_branch_error_persistence envProtoHostFails arOpenid rfl (by decide)
      (by decide)).2.2 "https://app.example.com/protected"
    "missing forwarded headers" rfl rfl rfl

/-- C3: the consent decision is set-based: with no requested scopes
consent is never missing; with requested scopes, consent is missing
exactly when the workflow session is absent or the requested scopes and
the workflow's granted scopes do not contain the same elements; and the
decision is invariant under reordering of either list. -/
theorem isConsentMissing_set_semantics (rs rs2 gs gs2 : List String)
    (w : OIDCWorkflowSession) (hr : rs.Perm rs2) (hg : gs.Perm gs2) :
    isConsentMissing [] (some w) = false ∧
    isConsentMissing [] none = false ∧
    (rs ≠ [] → isConsentMissing rs none = true) ∧
    (rs ≠ [] →
      (isConsentMissing rs (some { w with GrantedScopes := gs }) = true ↔
        ¬(∀ s : String, s ∈ rs ↔ s ∈ gs))) ∧
    isConsentMissing rs (some { w with GrantedScopes := gs }) =
      isConsentMissing rs2 (some { w with GrantedScopes := gs2 }) := by
  refine ⟨rfl, rfl, ?_, ?_, ?_⟩
  · intro h
    simp [isConsentMissing, List.length_pos, h]
  · intro h
    simp [isConsentMissing, IsStringSlicesDifferent, List.length_pos, h,
      List.toFinset.ext_iff]
  · have h1 : rs.toFinset = rs2.toFinset := List.toFinset_eq_of_perm _ _ hr
    have h2 : gs.toFinset = gs2.toFinset := List.toFinset_eq_of_perm _ _ hg
    simp [isConsentMissing, IsStringSlicesDifferent, h1, h2, hr.length_eq]

/-- Witness for C3: reordering the requested scopes does not change the
consent decision against a partially granted workflow. -/
theorem isConsentMissing_set_semantics_witness :
    (["openid", "email"] : List String).Perm ["email", "openid"] ∧
    isConsentMissing ["openid", "email"]
        (some { workflowOther with GrantedScopes := ["openid"] }) =
      isConsentMissing ["email", "openid"]
        (some { workflowOther with GrantedScopes := ["openid"] }) :=
  ⟨by decide,
    (isConsentMissing_set_semantics ["openid", "email"] ["email", "openid"]
        ["openid"] ["openid"] workflowOther (by decide)
        (List.Perm.refl _)).2.2.2.2⟩

/-- C4: whenever the pending branch is taken on the browser-navigation
path and every infrastructure call succeeds, the invocation terminates
with a 302 redirect whose target is the consent endpoint when consent
is missing — consent takes precedence even when authentication is also
insufficient — and otherwise the re-authentication entry point carrying
the `workflow=openid` continuation marker. -/
theorem pending_branch_redirect_target (env : Env) (ar : AuthorizeRequest)
    (u host : String)
    (hp : env.parseResult = Except.ok ar)
    (hsome : (getOIDCClientConfig ar.clientID env.configuration).isSome = true)
    (hpend : (!(IsAuthLevelSufficient env.session.AuthenticationLevel
        env.requiredLevel) ||
      isConsentMissing ar.requestedScopes
        env.session.OIDCWorkflowSession) = true)
    (ho : env.originalURL = Except.ok u)
    (hs : env.saveSessionErr = none)
    (hf : env.forwardedProtoHost = Except.ok host) :
    (AuthorizeEndpointGet env).outcome =
      (if isConsentMissing ar.requestedScopes env.session.OIDCWorkflowSession
       then Outcome.redirect 302 (host ++ "/consent")
       else Outcome.redirect 302 (host ++ "?workflow=openid")) := by
  rw [authorizeHandler_pending_redirect env ar u host hp hsome hpend ho hs hf]

/-- Witness for C4: unauthenticated session, two-factor required,
consent also missing: the redirect goes to the consent endpoint. -/
theorem pending_branch_redirect_target_witness :
    (!(IsAuthLevelSufficient envPending.session.AuthenticationLevel
        envPending.requiredLevel) ||
      isConsentMissing arOpenid.requestedScopes
        envPending.session.OIDCWorkflowSession) = true ∧
    (AuthorizeEndpointGet envPending).outcome =
      (if isConsentMissing arOpenid.requestedScopes
          envPending.session.OIDCWorkflowSession
       then Outcome.redirect 302 ("https://auth.example.com" ++ "/consent")
       else Outcome.redirect 302
          ("https://auth.example.com" ++ "?workflow=openid")) :=
  ⟨by decide,
    pending_branch_redirect_target envPending arOpenid
      "https://app.example.com/protected" "https://auth.example.com" rfl
      (by decide) (by decide) rfl rfl rfl⟩

/-- C5: in the satisfied branch every requested scope and audience is
marked granted on the request object, the workflow is cleared and the
cleared session persisted exactly once before the protocol engine's
response builder is reached, and a persist failure answers 500 with the
builder never invoked. -/
theorem satisfied_branch_grants_and_persists_once (env : Env)
    (ar : AuthorizeRequest) (post : Bool)
    (hp : env.parseResult = Except.ok ar)
    (hsome : (getOIDCClientConfig ar.clientID env.configuration).isSome = true)
    (hsat : post = true ∨
      (IsAuthLevelSufficient env.session.AuthenticationLevel
          env.requiredLevel = true ∧
        isConsentMissing ar.requestedScopes
          env.session.OIDCWorkflowSession = false)) :
    (authorizeHandler env post).grantedScopes = ar.requestedScopes ∧
    (authorizeHandler env post).grantedAudience = ar.requestedAudience ∧
    persistEvents (authorizeHandler env post).events =
      [({ env.session with OIDCWorkflowSession := none },
        env.saveSessionErr.isNone)] ∧
    (∀ e, env.saveSessionErr = some e →
      (authorizeHandler env post).outcome = Outcome.httpError 500 e ∧
      Event.newAuthorizeResponse ∉ (authorizeHandler env post).events) ∧
    (env.saveSessionErr = none →
      (authorizeHandler env post).events.getLast? =
        some Event.newAuthorizeResponse ∧
      Event.sessionPersist { env.session with OIDCWorkflowSession := none }
        true ∈ (authorizeHandler env post).events.dropLast) := by
  rw [authorizeHandler_satisfied_eq env ar post hp hsome hsat]
  apply finalizeAuthorization_spec
  · cases post <;> simp [persistEvents]
  · cases post <;> simp

/-- Witness for C5 at the satisfied browser-navigation environment. -/
theorem satisfied_branch_grants_and_persists_once_witness :
    (authorizeHandler envSatisfied false).grantedScopes =
      arNoScopes.requestedScopes ∧
    persistEvents (authorizeHandler envSatisfied false).events =
      [({ envSatisfied.session with OIDCWorkflowSession := none },
        envSatisfied.saveSessionErr.isNone)] :=
  ⟨(satisfied_branch_grants_and_persists_once envSatisfied arNoScopes false
      rfl (by decide) (Or.inr ⟨by decide, by decide⟩)).1,
    (satisfied_branch_grants_and_persists_once envSatisfied arNoScopes false
      rfl (by decide) (Or.inr ⟨by decide, by decide⟩)).2.2.1⟩

/-- C7: an unknown client ID terminates through the protocol engine's
error writer with the client-not-found error and an empty effect trace
(no session read, no session mutation, no persist), on either entry
point; and the registry lookup is a pure function returning the
matching configuration (correct ID, member of the registry) or an
absent result exactly when no registered client carries the ID. -/
theorem client_not_found_terminal (env : Env) (ar : AuthorizeRequest)
    (post : Bool)
    (hp : env.parseResult = Except.ok ar)
    (hn : getOIDCClientConfig ar.clientID env.configuration = none) :
    (authorizeHandler env post).outcome =
      Outcome.writeAuthorizeError
        ("Unable to find related client configuration with name " ++ ar.id) ∧
    (authorizeHandler env post).events = [] ∧
    (∀ c, c ∈ env.configuration.Clients → c.ID ≠ ar.clientID) ∧
    (∀ cid (cfg : OpenIDConnectConfiguration) c,
      getOIDCClientConfig cid cfg = some c → c.ID = cid ∧ c ∈ cfg.Clients) := by
  refine ⟨?_, ?_, ?_, ?_⟩
  · simp [authorizeHandler, hp, hn]
  · simp [authorizeHandler, hp, hn]
  · intro c hc
    simp only [getOIDCClientConfig] at hn
    have hne := List.find?_eq_none.mp hn c hc
    simp only [beq_iff_eq] at hne
    exact fun h => hne h.symm
  · intro cid cfg c h
    simp only [getOIDCClientConfig] at h
    have hid := List.find?_some h
    simp only [beq_iff_eq] at hid
    exact ⟨hid.symm, List.mem_of_find?_eq_some h⟩

/-- Witness for C7 at a registry without the requesting client. -/
theorem client_not_found_terminal_witness :
    (authorizeHandler envUnknownClient false).outcome =
      Outcome.writeAuthorizeError
        ("Unable to find related client configuration with name "
          ++ arOpenid.id) ∧
    (authorizeHandler envUnknownClient false).events = [] :=
  ⟨(client_not_found_terminal envUnknownClient arOpenid false rfl rfl).1,
    (client_not_found_terminal envUnknownClient arOpenid false rfl rfl).2.1⟩

/-- C6: the trusted-continuation (post) entry point never redirects,
performs no policy check, and never persists a session holding a
workflow; its whole result is unchanged by the policy-level inputs
(required level, resolved URIs) and by the session's stored workflow,
so no consent check can influence it; the browser-navigation entry
point, in contrast, evaluates authentication and consent first: when
either is unmet no scope is ever granted. -/
theorem trusted_continuation_skips_policy_and_consent (env : Env)
    (l : AuthorizationLevel) (o f : Except String String)
    (w : Option OIDCWorkflowSession) :
    (∀ n t, (AuthorizeEndpointPost env).outcome ≠ Outcome.redirect n t) ∧
    (∀ r, Event.policyCheck r ∉ (AuthorizeEndpointPost env).events) ∧
    (∀ s ok, Event.sessionPersist s ok ∈ (AuthorizeEndpointPost env).events →
      s.OIDCWorkflowSession = none) ∧
    AuthorizeEndpointPost
        { env with
          requiredLevel := l
          originalURL := o
          forwardedProtoHost := f
          session := { env.session with OIDCWorkflowSession := w } } =
      AuthorizeEndpointPost env ∧
    (∀ ar, env.parseResult = Except.ok ar →
      (!(IsAuthLevelSufficient env.session.AuthenticationLevel
          env.requiredLevel) ||
        isConsentMissing ar.requestedScopes
          env.session.OIDCWorkflowSession) = true →
      ∀ sc, Event.grantScope sc ∉ (AuthorizeEndpointGet env).events) ∧
    (∀ ar c, env.parseResult = Except.ok ar →
      getOIDCClientConfig ar.clientID env.configuration = some c →
      (AuthorizeEndpointPost env).grantedScopes = ar.requestedScopes ∧
      (AuthorizeEndpointPost env).grantedAudience = ar.requestedAudience) := by
  obtain ⟨pr, cfg, ⟨un, gr, al, wf⟩, rl, ou, fph, sse, are⟩ := env
  refine ⟨?_, ?_, ?_, ?_, ?_, ?_⟩
  · intro n t
    cases pr with
    | error e => simp [AuthorizeEndpointPost, authorizeHandler]
    | ok ar =>
      cases hcc : getOIDCClientConfig ar.clientID cfg with
      | none => simp [AuthorizeEndpointPost, authorizeHandler, hcc]
      | some c =>
        cases sse <;> cases are <;>
          simp [AuthorizeEndpointPost, authorizeHandler,
            finalizeAuthorization, hcc]
  · intro r
    cases pr with
    | error e => simp [AuthorizeEndpointPost, authorizeHandler]
    | ok ar =>
      cases hcc : getOIDCClientConfig ar.clientID cfg with
      | none => simp [AuthorizeEndpointPost, authorizeHandler, hcc]
      | some c =>
        cases sse <;> cases are <;>
          simp [AuthorizeEndpointPost, authorizeHandler,
            finalizeAuthorization, hcc]
  · intro s ok hmem
    cases pr with
    | error e =>
      simp [AuthorizeEndpointPost, authorizeHandler] at hmem
    | ok ar =>
      cases hcc : getOIDCClientConfig ar.clientID cfg with
      | none => simp [AuthorizeEndpointPost, authorizeHandler, hcc] at hmem
      | some c =>
        cases sse <;> cases are <;>
          simp [AuthorizeEndpointPost, authorizeHandler,
            finalizeAuthorization, hcc] at hmem <;>
          simp [hmem.1]
  · cases pr with
    | error e => simp [AuthorizeEndpointPost, authorizeHandler]
    | ok ar =>
      cases hcc : getOIDCClientConfig ar.clientID cfg with
      | none => simp [AuthorizeEndpointPost, authorizeHandler, hcc]
      | some c =>
        cases sse <;> cases are <;>
          simp [AuthorizeEndpointPost, authorizeHandler,
            finalizeAuthorization, hcc]
  · intro ar hpr hpend sc
    subst hpr
    cases hcc : getOIDCClientConfig ar.clientID cfg with
    | none => simp [AuthorizeEndpointGet, authorizeHandler, hcc]
    | some c =>
      have hsome : (getOIDCClientConfig ar.clientID cfg).isSome = true := by
        rw [hcc]; rfl
      cases ou with
      | error e =>
        rw [authorizeHandler_pending_originalURL_error _ ar e rfl hsome
          hpend rfl]
        simp
      | ok u =>
        cases sse with
        | some e =>
          rw [authorizeHandler_pending_save_error _ ar u e rfl hsome hpend
            rfl rfl]
          simp
        | none =>
          cases fph with
          | error e =>
            rw [authorizeHandler_pending_protoHost_error _ ar u e rfl hsome
              hpend rfl rfl rfl]
            simp
          | ok host =>
            rw [authorizeHandler_pending_redirect _ ar u host rfl hsome hpend
              rfl rfl rfl]
            simp
  · intro ar c hpr hcc
    subst hpr
    cases sse <;> cases are <;>
      simp [AuthorizeEndpointPost, authorizeHandler, finalizeAuthorization,
        hcc]

/-- Witness for C6: on the post path the result is unchanged when the
required level, the resolved URIs and the stored workflow change. -/
theorem trusted_continuation_skips_policy_and_consent_witness :
    AuthorizeEndpointPost
        { envSatisfied with
          requiredLevel := .twoFactor
          originalURL := Except.error "no original url"
          forwardedProtoHost := Except.error "no proto host"
          session := { envSatisfied.session with
            OIDCWorkflowSession := some workflowOther } } =
      AuthorizeEndpointPost envSatisfied :=
  (trusted_continuation_skips_policy_and_consent envSatisfied .twoFactor
    (Except.error "no original url") (Except.error "no proto host")
    (some workflowOther)).2.2.2.1

/-- C8: with an already-cleared workflow, sufficient authentication and
empty requested scopes (so consent holds), a browser-navigation
invocation creates no workflow session and proceeds directly to
finalization, every session it persists has a nil workflow field, and a
second invocation on the session state left by the first (the cleared
session) behaves identically. -/
theorem satisfied_state_idempotent (env : Env) (ar : AuthorizeRequest)
    (hp : env.parseResult = Except.ok ar)
    (hsome : (getOIDCClientConfig ar.clientID env.configuration).isSome = true)
    (hw : env.session.OIDCWorkflowSession = none)
    (hauth : IsAuthLevelSufficient env.session.AuthenticationLevel
        env.requiredLevel = true)
    (hsc : ar.requestedScopes = [])
    (hsave : env.saveSessionErr = none) :
    (∀ n t, (AuthorizeEndpointGet env).outcome ≠ Outcome.redirect n t) ∧
    Event.newAuthorizeResponse ∈ (AuthorizeEndpointGet env).events ∧
    (∀ s ok, Event.sessionPersist s ok ∈ (AuthorizeEndpointGet env).events →
      s.OIDCWorkflowSession = none) ∧
    (∀ n t, (AuthorizeEndpointGet { env with session :=
        { env.session with OIDCWorkflowSession := none } }).outcome ≠
      Outcome.redirect n t) ∧
    Event.newAuthorizeResponse ∈ (AuthorizeEndpointGet { env with session :=
        { env.session with OIDCWorkflowSession := none } }).events ∧
    (∀ s ok, Event.sessionPersist s ok ∈ (AuthorizeEndpointGet { env with
        session := { env.session with OIDCWorkflowSession := none } }).events →
      s.OIDCWorkflowSession = none) := by
  have hsess : { env.session with OIDCWorkflowSession := none } =
      env.session := by
    rw [← hw]
  have henv : ({ env with session :=
      { env.session with OIDCWorkflowSession := none } } : Env) = env := by
    rw [hsess]
  have hcons : isConsentMissing ar.requestedScopes
      env.session.OIDCWorkflowSession = false := by
    rw [hsc]
    rfl
  have heq : AuthorizeEndpointGet env =
      finalizeAuthorization env ar
        [Event.sessionRead, Event.policyCheck env.requiredLevel] := by
    simp only [AuthorizeEndpointGet]
    rw [authorizeHandler_satisfied_eq env ar false hp hsome
      (Or.inr ⟨hauth, hcons⟩)]
    rfl
  rw [henv, heq]
  have hA : ∀ n t, (finalizeAuthorization env ar
      [Event.sessionRead, Event.policyCheck env.requiredLevel]).outcome ≠
      Outcome.redirect n t := by
    intro n t
    cases har : env.authorizeResponseErr <;>
      simp [finalizeAuthorization, hsave, har]
  have hB : Event.newAuthorizeResponse ∈ (finalizeAuthorization env ar
      [Event.sessionRead, Event.policyCheck env.requiredLevel]).events := by
    cases har : env.authorizeResponseErr <;>
      simp [finalizeAuthorization, hsave, har]
  have hC : ∀ s ok, Event.sessionPersist s ok ∈ (finalizeAuthorization env ar
      [Event.sessionRead, Event.policyCheck env.requiredLevel]).events →
      s.OIDCWorkflowSession = none := by
    intro s ok hmem
    cases har : env.authorizeResponseErr <;>
      simp [finalizeAuthorization, hsave, har] at hmem <;>
      simp [hmem.1]
  exact ⟨hA, hB, hC, hA, hB, hC⟩

/-- Witness for C8 at the satisfied environment. -/
theorem satisfied_state_idempotent_witness :
    Event.newAuthorizeResponse ∈ (AuthorizeEndpointGet envSatisfied).events ∧
    Event.newAuthorizeResponse ∈ (AuthorizeEndpointGet { envSatisfied with
      session := { envSatisfied.session with
        OIDCWorkflowSession := none } }).events :=
  ⟨(satisfied_state_idempotent envSatisfied arNoScopes rfl (by decide) rfl
      (by decide) rfl rfl).2.1,
    (satisfied_state_idempotent envSatisfied arNoScopes rfl (by decide) rfl
      (by decide) rfl rfl).2.2.2.2.1⟩

/-- C9: every session the pending branch persists carries exactly the
workflow record built at lines 87-92: the request's client ID, requested
scopes, forwarded URI, redirect target and the computed required level —
and an empty `GrantedScopes` (never assigned, left at the zero value of
`new`), so for a non-empty scope request the consent check on that
freshly installed workflow still reports consent missing. -/
theorem pending_workflow_has_empty_granted_scopes (env : Env)
    (ar : AuthorizeRequest) (u : String)
    (hp : env.parseResult = Except.ok ar)
    (hsome : (getOIDCClientConfig ar.clientID env.configuration).isSome = true)
    (hpend : (!(IsAuthLevelSufficient env.session.AuthenticationLevel
        env.requiredLevel) ||
      isConsentMissing ar.requestedScopes
        env.session.OIDCWorkflowSession) = true)
    (ho : env.originalURL = Except.ok u) :
    (∀ s ok, Event.sessionPersist s ok ∈ (AuthorizeEndpointGet env).events →
      s.OIDCWorkflowSession = some (pendingWorkflow env ar u)) ∧
    (pendingWorkflow env ar u).ClientID = ar.clientID ∧
    (pendingWorkflow env ar u).RequestedScopes = ar.requestedScopes ∧
    (pendingWorkflow env ar u).AuthURI = u ∧
    (pendingWorkflow env ar u).TargetURI = ar.redirectURI ∧
    (pendingWorkflow env ar u).RequiredAuthorizationLevel =
      env.requiredLevel ∧
    (pendingWorkflow env ar u).GrantedScopes = [] ∧
    (ar.requestedScopes ≠ [] →
      isConsentMissing ar.requestedScopes
        (some (pendingWorkflow env ar u)) = true) := by
  refine ⟨?_, rfl, rfl, rfl, rfl, rfl, rfl, ?_⟩
  · intro s ok hmem
    cases hsv : env.saveSessionErr with
    | some e =>
      rw [authorizeHandler_pending_save_error env ar u e hp hsome hpend
        ho hsv] at hmem
      simp at hmem
      simp [hmem.1, pendingSession]
    | none =>
      cases hf : env.forwardedProtoHost with
      | error e =>
        rw [authorizeHandler_pending_protoHost_error env ar u e hp hsome
          hpend ho hsv hf] at hmem
        simp at hmem
        simp [hmem.1, pendingSession]
      | ok host =>
        rw [authorizeHandler_pending_redirect env ar u host hp hsome hpend
          ho hsv hf] at hmem
        simp at hmem
        simp [hmem.1, pendingSession]
  · intro h
    simp [isConsentMissing, IsStringSlicesDifferent, pendingWorkflow,
      List.length_pos, h, List.toFinset_nil, List.toFinset_eq_empty_iff]

/-- Witness for C9 at the healthy pending environment: the installed
workflow still leaves consent missing for the same request. -/
theorem pending_workflow_has_empty_granted_scopes_witness :
    isConsentMissing arOpenid.requestedScopes
      (some (pendingWorkflow envPending arOpenid
        "https://app.example.com/protected")) = true :=
  (pending_workflow_has_empty_granted_scopes envPending arOpenid
    "https://app.example.com/protected" rfl (by decide) (by decide)
    rfl).2.2.2.2.2.2.2 (by decide)

/-- C10: in the finalize branch the cleared session is persisted (once,
successfully) strictly before the protocol engine's response builder
event, so when the builder fails and the error path answers, the
persisted session already carries no workflow. -/
theorem finalize_persists_cleared_before_builder (env : Env)
    (ar : AuthorizeRequest) (post : Bool) (e : String)
    (hp : env.parseResult = Except.ok ar)
    (hsome : (getOIDCClientConfig ar.clientID env.configuration).isSome = true)
    (hsat : post = true ∨
      (IsAuthLevelSufficient env.session.AuthenticationLevel
          env.requiredLevel = true ∧
        isConsentMissing ar.requestedScopes
          env.session.OIDCWorkflowSession = false))
    (hsave : env.saveSessionErr = none)
    (herr : env.authorizeResponseErr = some e) :
    (authorizeHandler env post).outcome = Outcome.writeAuthorizeError e ∧
    persistEvents (authorizeHandler env post).events =
      [({ env.session with OIDCWorkflowSession := none }, true)] ∧
    (authorizeHandler env post).events.getLast? =
      some Event.newAuthorizeResponse ∧
    Event.sessionPersist { env.session with OIDCWorkflowSession := none }
      true ∈ (authorizeHandler env post).events.dropLast := by
  rw [authorizeHandler_satisfied_eq env ar post hp hsome hsat]
  have hspec := finalizeAuthorization_spec env ar
    (if post then []
     else [Event.sessionRead, Event.policyCheck env.requiredLevel])
    (by cases post <;> simp [persistEvents])
    (by cases post <;> simp)
  refine ⟨?_, ?_, (hspec.2.2.2.2 hsave).1, (hspec.2.2.2.2 hsave).2⟩
  · simp [finalizeAuthorization, hsave, herr]
  · have h3 := hspec.2.2.1
    rw [hsave] at h3
    simpa using h3

/-- Witness for C10 at the environment whose response builder fails. -/
theorem finalize_persists_cleared_before_builder_witness :
    (authorizeHandler envBuilderFails false).outcome =
      Outcome.writeAuthorizeError "invalid redirect" ∧
    persistEvents (authorizeHandler envBuilderFails false).events =
      [({ envBuilderFails.session with OIDCWorkflowSession := none },
        true)] :=
  ⟨(finalize_persists_cleared_before_builder envBuilderFails arNoScopes false
      "invalid redirect" rfl (by decide) (Or.inr ⟨by decide, by decide⟩)
      rfl rfl).1,
    (finalize_persists_cleared_before_builder envBuilderFails arNoScopes false
      "invalid redirect" rfl (by decide) (Or.inr ⟨by decide, by decide⟩)
      rfl rfl).2.1⟩
